import Mathlib

/-!
Verification development for a poll-transform-deliver pipeline that fetches
recently updated tasks from a construction-management API and forwards
rendered notification cards to a team-chat webhook.

The embedding is shallow.  Pure data manipulation is translated directly;
every effect (HTTP requests, the template engine, the wall clock) is made
explicit as an oracle argument describing the outcome the outside world
produces, so each operation becomes a total function of its inputs, its
in-memory state and the oracle.  Python dictionaries with optional keys are
translated to structures with `Option` fields, and `dict.get(k, d)` becomes
`Option.getD`.
-/

namespace FwTeams

/-- Simplified JSON value, the shape of parsed card documents and response
bodies. -/
inductive JVal where
  | str (s : String)
  | num (n : Int)
  | jbool (b : Bool)
  | jnull
  | arr (xs : List JVal)
  | obj (fields : List (String × JVal))
deriving Repr

/-- Lookup of a key in a JSON object; `none` on a non-object or missing key. -/
def jGet (j : JVal) (k : String) : Option JVal :=
  match j with
  | .obj fields =>
    match fields.find? (fun kv => kv.1 == k) with
    | some kv => some kv.2
    | none => none
  | _ => none

/-- Body array of a card document, empty when absent or not an array. -/
def bodyBlocks (card : JVal) : List JVal :=
  match jGet card "body" with
  | some (.arr xs) => xs
  | _ => []

/-- Text field of a card body block, when present and a string. -/
def blockText (block : JVal) : Option String :=
  match jGet block "text" with
  | some (.str s) => some s
  | _ => none

/-- Assignee sub-dictionary of a task record: the source reads
`task.get("assigned_to", {}).get("name", "Unassigned")`, so only the
optional `name` key matters. -/
structure Assignee where
  name : Option String
deriving Repr, DecidableEq

/-- Task record from the task-tracking API.  Every field the card module
reads is optional in the source dictionary. -/
structure Task where
  id : Option String
  title : Option String
  status : Option String
  description : Option String
  due_date : Option String
  assigned_to : Option Assignee
  priority : Option String
deriving Repr, DecidableEq

/-- Attachment (photo) metadata record. -/
structure Attachment where
  id : Option String
  url : Option String
deriving Repr, DecidableEq

/-- Argument vector handed to `template.render(...)` in
`AdaptiveCardGenerator.generate_task_card`. -/
structure RenderInput where
  task_id : Option String
  task_name : String
  status : String
  description : String
  due_date : String
  assigned_to : String
  priority : String
  photos : List Attachment
deriving Repr, DecidableEq

/-- Photo preparation in `generate_task_card`: `photos = []`, then
`if attachments: photos = attachments[:3]`.  The truthiness test makes the
empty list and the missing argument both yield no photos. -/
def preparePhotos (attachments : Option (List Attachment)) : List Attachment :=
  match attachments with
  | none => []
  | some atts => if atts.isEmpty then [] else atts.take 3

/-- Keyword arguments of the `template.render` call, built from the task
dictionary with the documented defaults, translated from
src/modules/card.py lines 44-54. -/
def renderInputFor (task : Task) (attachments : Option (List Attachment)) :
    RenderInput :=
  { task_id := task.id
    task_name := task.title.getD "Untitled Task"
    status := task.status.getD "unknown"
    description := task.description.getD ""
    due_date := task.due_date.getD ""
    assigned_to := ((task.assigned_to.getD ⟨none⟩).name).getD "Unassigned"
    priority := task.priority.getD "normal"
    photos := preparePhotos attachments }

/-- Fallback card built by `AdaptiveCardGenerator._get_fallback_card`
(src/modules/card.py lines 65-96), translated field by field. -/
def get_fallback_card (task : Task) : JVal :=
  .obj
    [ ("$schema", .str "http://adaptivecards.io/schemas/adaptive-card.json"),
      ("type", .str "AdaptiveCard"),
      ("version", .str "1.4"),
      ("body", .arr
        [ .obj [ ("type", .str "TextBlock"), ("size", .str "large"),
                 ("weight", .str "bolder"),
                 ("text", .str (task.title.getD "Task Update")) ],
          .obj [ ("type", .str "TextBlock"),
                 ("text", .str ("Status: " ++ task.status.getD "unknown")),
                 ("spacing", .str "small") ],
          .obj [ ("type", .str "TextBlock"),
                 ("text", .str (task.description.getD "No description")),
                 ("spacing", .str "small") ] ]) ]

/-- Card generation (src/modules/card.py lines 36-63).  The whole primary
path — template lookup, `template.render`, and `json.loads` of its output —
sits inside one `try` whose `except Exception` returns the fallback card,
so it is modelled as one oracle `tmpl` from the substituted arguments to
either a parsed card or a failure. -/
def generate_task_card (tmpl : RenderInput → Except String JVal)
    (task : Task) (attachments : Option (List Attachment)) : JVal :=
  match tmpl (renderInputFor task attachments) with
  | .ok card => card
  | .error _ => get_fallback_card task

/-! ## Teams webhook sender (src/modules/send.py)

Time is modelled as exact rational wall-clock readings: the entry reading
`time.time()` used for the elapsed computation, the duration of the HTTP
POST, and the outcome the transport produces (a final status code and body
after the retry adapter, or a `RequestException`). -/

/-- Outcome of one HTTP exchange as seen by the calling code. -/
inductive HttpOutcome where
  | response (code : Nat) (body : String)
  | exn (msg : String)
deriving Repr, DecidableEq

/-- Mutable state of `TeamsWebhookSender`: `last_send_time`, initialised
to 0 in `__init__`. -/
structure SendState where
  last_send_time : ℚ
deriving Repr, DecidableEq

/-- World events of a single `send_card` call: the clock reading at call
entry, the duration the POST takes, and its outcome. -/
structure CallEvents where
  entry : ℚ
  postDur : ℚ
  outcome : HttpOutcome
deriving Repr, DecidableEq

/-- Sleep performed by the rate limiter at the top of `send_card`:
`elapsed = time.time() - self.last_send_time`, then
`sleep(self.rate_limit - elapsed)` when `elapsed < self.rate_limit`. -/
def sendSleep (rate_limit : ℚ) (st : SendState) (ev : CallEvents) : ℚ :=
  let elapsed := ev.entry - st.last_send_time
  if elapsed < rate_limit then rate_limit - elapsed else 0

/-- Clock time at which the HTTP POST of a `send_card` call is issued. -/
def sendPostStart (rate_limit : ℚ) (st : SendState) (ev : CallEvents) : ℚ :=
  ev.entry + sendSleep rate_limit st ev

/-- Clock time at which the HTTP POST of a `send_card` call completes;
this is the `time.time()` stored into `last_send_time` on the response
path, and also the time at which the call returns. -/
def sendPostEnd (rate_limit : ℚ) (st : SendState) (ev : CallEvents) : ℚ :=
  sendPostStart rate_limit st ev + ev.postDur

/-- Single card send (src/modules/send.py lines 40-89): rate-limit sleep,
POST, `last_send_time` update, then the status-code ladder
200 / 429 / 401 / other; a `RequestException` skips the `last_send_time`
update and yields `False`. -/
def send_card (rate_limit : ℚ) (st : SendState) (ev : CallEvents) :
    SendState × Bool :=
  match ev.outcome with
  | .response code _ =>
    let st' : SendState := { last_send_time := sendPostEnd rate_limit st ev }
    if code == 200 then (st', true)
    else if code == 429 then (st', false)
    else if code == 401 then (st', false)
    else (st', false)
  | .exn _ => (st, false)

/-- Tally returned by `send_batch`. -/
structure BatchResult where
  success : Nat
  failed : Nat
deriving Repr, DecidableEq

/-- Batch send (src/modules/send.py lines 91-109): sequential `send_card`
per card, incrementing the success or failed tally, with no early abort.
Each list element carries the world events of the corresponding call. -/
def send_batch (rate_limit : ℚ) (st : SendState) (calls : List CallEvents) :
    SendState × BatchResult :=
  match calls with
  | [] => (st, ⟨0, 0⟩)
  | c :: rest =>
    let r := send_card rate_limit st c
    let rec' := send_batch rate_limit r.1 rest
    (rec'.1,
      if r.2 then ⟨rec'.2.success + 1, rec'.2.failed⟩
      else ⟨rec'.2.success, rec'.2.failed + 1⟩)

/-- Whether a call outcome is counted as success: exactly status 200. -/
def callOk (ev : CallEvents) : Bool :=
  match ev.outcome with
  | .response code _ => code == 200
  | .exn _ => false

/-- Webhook connectivity probe (src/modules/send.py lines 111-138): POST a
fixed text payload, `True` exactly on status 200, `False` on any other
status or a `RequestException`. -/
def test_webhook (probe : HttpOutcome) : Bool :=
  match probe with
  | .response code _ => code == 200
  | .exn _ => false

/-! ## Authentication (src/modules/auth.py) -/

/-- Python string formatting of a possibly absent value: `f"Bearer {x}"`
renders `None` as the literal text `None`. -/
def optStr : Option String → String
  | none => "None"
  | some s => s

/-- Python truthiness of the cached token: `not self.access_token` is true
for `None` and for the empty string. -/
def tokenFalsy : Option String → Bool
  | none => true
  | some s => s == ""

/-- In-memory state of `FieldwireAuth` (src/modules/auth.py lines 16-30):
the long-lived credential, the region, and the lazily cached token fields,
both `None` after `__init__`. -/
structure FieldwireAuth where
  api_token : String
  region : String
  access_token : Option String
  expires_at : Option String
deriving Repr, DecidableEq

/-- Outcome of the JWT exchange request: the parsed response body, whose
`access_token` and `expires_at` keys are read with `.get` and may be
absent, or a `RequestException`. -/
inductive JwtOutcome where
  | ok (access_token : Option String) (expires_at : Option String)
  | err (msg : String)
deriving Repr, DecidableEq

/-- Token exchange `FieldwireAuth.get_jwt_token` (src/modules/auth.py
lines 32-58): on success stores `data.get("access_token")` and
`data.get("expires_at")` into the state; a `RequestException` is re-raised
to the caller. -/
def get_jwt_token (st : FieldwireAuth) (world : JwtOutcome) :
    Except String FieldwireAuth :=
  match world with
  | .ok tok exp => .ok { st with access_token := tok, expires_at := exp }
  | .err e => .error e

/-- Observable result of `get_auth_headers`: the state after the call, the
Authorization header value returned, and whether `get_jwt_token` was
invoked during the call. -/
structure AuthHeadersResult where
  state : FieldwireAuth
  authorization : String
  authenticated : Bool
deriving Repr, DecidableEq

/-- Header construction `FieldwireAuth.get_auth_headers`
(src/modules/auth.py lines 60-71): `if not self.access_token:
self.get_jwt_token()`, then return `Bearer {self.access_token}`.  No
expiry check of any kind is performed. -/
def get_auth_headers (st : FieldwireAuth) (world : JwtOutcome) :
    Except String AuthHeadersResult :=
  if tokenFalsy st.access_token then
    match get_jwt_token st world with
    | .ok st' => .ok ⟨st', "Bearer " ++ optStr st'.access_token, true⟩
    | .error e => .error e
  else
    .ok ⟨st, "Bearer " ++ optStr st.access_token, false⟩

/-! ## Fieldwire fetch client (src/modules/fetch.py)

Each GET is modelled by an oracle giving either the parsed JSON body of a
2xx response (its optional top-level list keys) or a `RequestException`;
`raise_for_status` folds non-2xx responses into the exception case, and
the `except requests.exceptions.RequestException` handler returns `[]`. -/

/-- Project (workspace) record; the id filter reads `p.get("id")`. -/
structure Project where
  id : Option String
  name : Option String
deriving Repr, DecidableEq

/-- Parsed JSON body of a fetch response, with the optional top-level keys
the three list endpoints read via `.get(key, [])`. -/
structure FetchBody where
  projects : Option (List Project)
  tasks : Option (List Task)
  attachments : Option (List Attachment)
deriving Repr, DecidableEq

/-- Outcome of one fetch GET: parsed body or transport failure (including
non-2xx via `raise_for_status`). -/
inductive FetchOutcome where
  | ok (body : FetchBody)
  | err (msg : String)
deriving Repr, DecidableEq

/-- State of `FieldwireFetch` after `__init__` (src/modules/fetch.py lines
15-26): the base URL and the Authorization header, both computed once at
construction from the auth object passed in. -/
structure FetchClient where
  base_url : String
  headers_authorization : String
deriving Repr, DecidableEq

/-- Constructor `FieldwireFetch.__init__`: freezes
`Bearer {auth.access_token}` into `self.headers` and derives the regional
base URL.  It never calls `get_auth_headers`. -/
def FieldwireFetch_init (auth : FieldwireAuth) : FetchClient :=
  { base_url := "https://api." ++ auth.region ++ ".fieldwire.io/api"
    headers_authorization := "Bearer " ++ optStr auth.access_token }

/-- Request issued by a fetch operation: target URL and the Authorization
header it carries. -/
structure FetchRequest where
  url : String
  authorization : String
deriving Repr, DecidableEq

/-- Truthiness-and-sentinel guard of the project filter:
`if project_ids and project_ids != ["ALL"]`. -/
def filterActive (project_ids : Option (List String)) : Bool :=
  match project_ids with
  | none => false
  | some l => !l.isEmpty && !(l == ["ALL"])

/-- Membership test `p.get("id") in project_ids`; a missing id never
equals a string in the list. -/
def idMatches (project_ids : List String) (p : Project) : Bool :=
  match p.id with
  | some i => project_ids.contains i
  | none => false

/-- Project listing `FieldwireFetch.get_projects` (src/modules/fetch.py
lines 28-51): GET `/projects`, parse `projects` key with default `[]`,
apply the id filter unless the filter is absent, empty, or exactly
`["ALL"]`; any `RequestException` yields `[]`.  Returns the issued request
alongside the result. -/
def get_projects (client : FetchClient) (outcome : FetchOutcome)
    (project_ids : Option (List String)) : FetchRequest × List Project :=
  let req : FetchRequest :=
    ⟨client.base_url ++ "/projects", client.headers_authorization⟩
  match outcome with
  | .ok body =>
    let projects := body.projects.getD []
    let projects :=
      if filterActive project_ids then
        projects.filter (idMatches (project_ids.getD []))
      else projects
    (req, projects)
  | .err _ => (req, [])

/-- Task listing `FieldwireFetch.get_tasks` (src/modules/fetch.py lines
53-78): GET `/projects/{id}/tasks` with a trailing-window query, parse the
`tasks` key with default `[]`; any `RequestException` yields `[]`. -/
def get_tasks (client : FetchClient) (project_id : String)
    (outcome : FetchOutcome) : FetchRequest × List Task :=
  let req : FetchRequest :=
    ⟨client.base_url ++ "/projects/" ++ project_id ++ "/tasks",
      client.headers_authorization⟩
  match outcome with
  | .ok body => (req, body.tasks.getD [])
  | .err _ => (req, [])

/-- Attachment listing `FieldwireFetch.get_task_attachments`
(src/modules/fetch.py lines 80-102): GET
`/projects/{pid}/tasks/{tid}/attachments`, parse the `attachments` key
with default `[]`; any `RequestException` yields `[]`. -/
def get_task_attachments (client : FetchClient) (project_id : String)
    (task_id : String) (outcome : FetchOutcome) :
    FetchRequest × List Attachment :=
  let req : FetchRequest :=
    ⟨client.base_url ++ "/projects/" ++ project_id ++ "/tasks/" ++ task_id
        ++ "/attachments",
      client.headers_authorization⟩
  match outcome with
  | .ok body => (req, body.attachments.getD [])
  | .err _ => (req, [])

/-! ## Concrete inputs used by counterexamples and witnesses -/

/-- Template oracle that always fails, as happens when the template file is
missing, the rendered output is not JSON, or a substitution blows up. -/
def failTmpl : RenderInput → Except String JVal :=
  fun _ => .error "template failure"

/-- Task dictionary whose title key is present but holds the empty
string. -/
def emptyTitleTask : Task :=
  { id := none, title := some "", status := none, description := none,
    due_date := none, assigned_to := none, priority := none }

/-- Task dictionary with every optional key absent. -/
def blankTask : Task :=
  { id := none, title := none, status := none, description := none,
    due_date := none, assigned_to := none, priority := none }

/-! ## Helper lemmas -/

/-- The boolean returned by `send_card` depends only on the HTTP outcome:
status 200 and nothing else counts as success. -/
theorem send_card_snd (rate_limit : ℚ) (st : SendState) (ev : CallEvents) :
    (send_card rate_limit st ev).2 = callOk ev := by
  rcases ev with ⟨e, d, o⟩
  cases o with
  | exn m => rfl
  | response code body =>
    simp only [send_card, callOk]
    split_ifs with h1 h2 h3 <;> simp [h1]

/-- On the response path `send_card` stores the post-completion clock
reading into `last_send_time`. -/
theorem send_card_fst_response (rate_limit : ℚ) (st : SendState)
    (ev : CallEvents) (code : Nat) (body : String)
    (h : ev.outcome = .response code body) :
    (send_card rate_limit st ev).1 =
      ⟨sendPostEnd rate_limit st ev⟩ := by
  rcases ev with ⟨e, d, o⟩
  cases o with
  | exn m => simp at h
  | response c b =>
    simp only [send_card]
    split_ifs <;> rfl

/-- The POST of any `send_card` call is issued no earlier than
`last_send_time + rate_limit`: either the elapsed time was already large
enough, or the sleep tops it up to exactly that bound. -/
theorem post_start_lower_bound (rate_limit : ℚ) (st : SendState)
    (ev : CallEvents) :
    st.last_send_time + rate_limit ≤ sendPostStart rate_limit st ev := by
  unfold sendPostStart sendSleep
  by_cases h : ev.entry - st.last_send_time < rate_limit
  · rw [if_pos h]; ring_nf; linarith
  · rw [if_neg h]; push_neg at h; linarith

/-- Body block texts of the fallback card, as functions of the task
fields. -/
theorem fallback_blocks (task : Task) :
    (bodyBlocks (get_fallback_card task)).map blockText =
      [some (task.title.getD "Task Update"),
       some ("Status: " ++ task.status.getD "unknown"),
       some (task.description.getD "No description")] := rfl

/-! ## Claims -/

/-- C2: for every task and every attachment list longer than 3, the
attachments substituted into the rendered card are exactly the first 3 of
the input list in source order; for lists of length 3 or fewer all
attachments are passed unchanged.  The first conjunct records that
`generate_task_card` renders the template exactly on
`renderInputFor task attachments`. -/
theorem C2_attachment_truncation (tmpl : RenderInput → Except String JVal)
    (task : Task) (atts : List Attachment) :
    (generate_task_card tmpl task (some atts) =
      match tmpl (renderInputFor task (some atts)) with
      | .ok card => card
      | .error _ => get_fallback_card task) ∧
    (3 < atts.length →
      (renderInputFor task (some atts)).photos = atts.take 3) ∧
    (atts.length ≤ 3 →
      (renderInputFor task (some atts)).photos = atts) := by
  refine ⟨rfl, ?_, ?_⟩
  · intro h
    have hne : atts.isEmpty = false := by
      cases atts with
      | nil => simp at h
      | cons a l => rfl
    simp [renderInputFor, preparePhotos, hne]
  · intro h
    cases hne : atts.isEmpty with
    | true =>
      rw [List.isEmpty_iff] at hne
      simp [renderInputFor, preparePhotos, hne]
    | false =>
      simp [renderInputFor, preparePhotos, hne, List.take_of_length_le h]

/-- Witness for C2 at two concrete inputs, one on each side of the length
threshold. -/
theorem C2_witness :
    (3 < ([⟨some "a", none⟩, ⟨some "b", none⟩, ⟨some "c", none⟩,
          ⟨some "d", none⟩] : List Attachment).length ∧
      (renderInputFor blankTask
          (some [⟨some "a", none⟩, ⟨some "b", none⟩, ⟨some "c", none⟩,
                 ⟨some "d", none⟩])).photos =
        [⟨some "a", none⟩, ⟨some "b", none⟩, ⟨some "c", none⟩]) ∧
    (([⟨some "a", none⟩] : List Attachment).length ≤ 3 ∧
      (renderInputFor blankTask (some [⟨some "a", none⟩])).photos =
        [⟨some "a", none⟩]) :=
  ⟨⟨by decide,
    (C2_attachment_truncation failTmpl blankTask _).2.1 (by decide)⟩,
   ⟨by decide,
    (C2_attachment_truncation failTmpl blankTask _).2.2 (by decide)⟩⟩

/-- C4: `send_batch` over N calls of which M fail attempts all of them in
order and returns success = N - M, failed = M, so the tallies always sum
to N.  Success of a call is exactly `callOk` of its outcome. -/
theorem C4_batch_tally (rate_limit : ℚ) (st : SendState)
    (calls : List CallEvents) :
    (send_batch rate_limit st calls).2.success =
      calls.countP (fun c => callOk c) ∧
    (send_batch rate_limit st calls).2.failed =
      calls.countP (fun c => !callOk c) ∧
    (send_batch rate_limit st calls).2.success +
      (send_batch rate_limit st calls).2.failed = calls.length := by
  induction calls generalizing st with
  | nil => exact ⟨rfl, rfl, rfl⟩
  | cons c rest ih =>
    obtain ⟨ih1, ih2, ih3⟩ := ih (send_card rate_limit st c).1
    simp only [send_batch, send_card_snd]
    cases h : callOk c with
    | true =>
      simp [List.countP_cons, h, ih1, ih2]
      omega
    | false =>
      simp [List.countP_cons, h, ih1, ih2]
      omega

/-- C5: `send_card` returns true exactly on an HTTP 200 response — false
on 429, 401, any other status, or a transport exception — and
`test_webhook` returns true only on an exact HTTP 200 from the probe
send. -/
theorem C5_status_discipline (rate_limit : ℚ) (st : SendState)
    (ev : CallEvents) (probe : HttpOutcome) :
    ((send_card rate_limit st ev).2 = true ↔
      ∃ body, ev.outcome = .response 200 body) ∧
    (test_webhook probe = true ↔ ∃ body, probe = .response 200 body) := by
  constructor
  · rw [send_card_snd]
    unfold callOk
    cases h : ev.outcome with
    | response code body =>
      simp only [beq_iff_eq]
      constructor
      · intro hc; exact ⟨body, by rw [hc]⟩
      · rintro ⟨b, hb⟩; cases hb; rfl
    | exn m => simp
  · unfold test_webhook
    cases probe with
    | response code body =>
      simp only [beq_iff_eq]
      constructor
      · intro hc; exact ⟨body, by rw [hc]⟩
      · rintro ⟨b, hb⟩; cases hb; rfl
    | exn m => simp

/-- Witness for C5: a 200 response yields true, a 429 response and an
exception yield false. -/
theorem C5_witness :
    (send_card (1/4) ⟨0⟩ ⟨1, 1, .response 200 "ok"⟩).2 = true ∧
    (send_card (1/4) ⟨0⟩ ⟨1, 1, .response 429 "slow"⟩).2 ≠ true ∧
    test_webhook (.exn "timeout") ≠ true := by
  refine ⟨?_, ?_, ?_⟩
  · exact (C5_status_discipline (1/4) ⟨0⟩ ⟨1, 1, .response 200 "ok"⟩
      (.response 200 "ok")).1.mpr ⟨"ok", rfl⟩
  · intro hc
    obtain ⟨b, hb⟩ := (C5_status_discipline (1/4) ⟨0⟩
      ⟨1, 1, .response 429 "slow"⟩ (.response 200 "ok")).1.mp hc
    cases hb
  · intro hc
    obtain ⟨b, hb⟩ := (C5_status_discipline (1/4) ⟨0⟩
      ⟨1, 1, .response 200 "ok"⟩ (.exn "timeout")).2.mp hc
    cases hb

/-- C1 counterexample: the claim asserts the fallback card always has
non-empty title text, but a task whose title key holds the empty string
produces a fallback card whose title block text is the empty string. -/
theorem C1_counterexample :
    generate_task_card failTmpl emptyTitleTask (some []) =
      get_fallback_card emptyTitleTask ∧
    (bodyBlocks (generate_task_card failTmpl emptyTitleTask
        (some []))).map blockText =
      [some "", some "Status: unknown", some "No description"] ∧
    "".length = 0 :=
  ⟨rfl, rfl, rfl⟩

/-- C1 (amended): whenever the template oracle fails, `generate_task_card`
returns the deterministic fallback card, whose body consists of a title
block, a status line and a description block; the status text is always
non-empty, and the title text is non-empty whenever the title field of the
task is absent.  (When the title field is present but empty, the title
text is empty, which is what the counterexample exhibits.)  Totality of
`generate_task_card` — the never-raises half of the claim — holds because
it is a total function of the oracle, the task and the attachments. -/
theorem C1_fallback_on_failure (tmpl : RenderInput → Except String JVal)
    (task : Task) (attachments : Option (List Attachment)) (e : String)
    (h : tmpl (renderInputFor task attachments) = .error e) :
    generate_task_card tmpl task attachments = get_fallback_card task ∧
    (bodyBlocks (get_fallback_card task)).map blockText =
      [some (task.title.getD "Task Update"),
       some ("Status: " ++ task.status.getD "unknown"),
       some (task.description.getD "No description")] ∧
    ("Status: " ++ task.status.getD "unknown") ≠ "" ∧
    (task.title = none → task.title.getD "Task Update" ≠ "") := by
  refine ⟨?_, fallback_blocks task, ?_, ?_⟩
  · unfold generate_task_card
    rw [h]
  · intro hcontra
    have hl := congrArg String.length hcontra
    rw [String.length_append] at hl
    have h8 : "Status: ".length = 8 := rfl
    have h0 : "".length = 0 := rfl
    omega
  · intro ht
    rw [ht]
    simp

/-- Witness for C1 at a concrete failing template and the all-absent
task. -/
theorem C1_witness :
    (failTmpl (renderInputFor blankTask none) =
        .error "template failure") ∧
    (blankTask.title = none) ∧
    generate_task_card failTmpl blankTask none =
      get_fallback_card blankTask :=
  ⟨rfl, rfl,
    (C1_fallback_on_failure failTmpl blankTask none "template failure"
      rfl).1⟩

/-- C3 counterexample: for a task with no title key and a failing
template, the document returned carries the fallback title default
`Task Update`, not the documented default `Untitled Task`, and contains no
assignee or priority text at all. -/
theorem C3_counterexample :
    (bodyBlocks (generate_task_card failTmpl blankTask none)).map
        blockText =
      [some "Task Update", some "Status: unknown",
       some "No description"] ∧
    "Task Update" ≠ "Untitled Task" :=
  ⟨rfl, by decide⟩

/-- C3 (amended): on the primary render path the documented defaults are
substituted into the template for every missing optional field — title
`Untitled Task`, status `unknown`, assignee `Unassigned`, priority
`normal` — and `generate_task_card` never fails outward; on the fallback
path the title default is `Task Update` instead (status stays `unknown`,
description defaults to `No description`). -/
theorem C3_render_defaults (task : Task)
    (attachments : Option (List Attachment)) :
    (task.title = none →
      (renderInputFor task attachments).task_name = "Untitled Task") ∧
    (task.status = none →
      (renderInputFor task attachments).status = "unknown") ∧
    (task.assigned_to = none →
      (renderInputFor task attachments).assigned_to = "Unassigned") ∧
    (task.priority = none →
      (renderInputFor task attachments).priority = "normal") ∧
    (task.title = none →
      (bodyBlocks (get_fallback_card task)).map blockText =
        [some "Task Update",
         some ("Status: " ++ task.status.getD "unknown"),
         some (task.description.getD "No description")]) := by
  refine ⟨?_, ?_, ?_, ?_, ?_⟩ <;> intro h <;>
    simp [renderInputFor, h, fallback_blocks]

/-- Witness for C3 at the all-absent task. -/
theorem C3_witness :
    (blankTask.title = none) ∧ (blankTask.status = none) ∧
    (blankTask.assigned_to = none) ∧ (blankTask.priority = none) ∧
    (renderInputFor blankTask none).task_name = "Untitled Task" ∧
    (renderInputFor blankTask none).status = "unknown" ∧
    (renderInputFor blankTask none).assigned_to = "Unassigned" ∧
    (renderInputFor blankTask none).priority = "normal" :=
  ⟨rfl, rfl, rfl, rfl,
   (C3_render_defaults blankTask none).1 rfl,
   (C3_render_defaults blankTask none).2.1 rfl,
   (C3_render_defaults blankTask none).2.2.1 rfl,
   (C3_render_defaults blankTask none).2.2.2.1 rfl⟩

/-- C4 witness at a concrete three-call batch with one failure. -/
theorem C4_witness :
    (send_batch (1/4) ⟨0⟩
      [⟨1, 1, .response 200 "ok"⟩, ⟨3, 1, .exn "timeout"⟩,
       ⟨5, 1, .response 200 "ok"⟩]).2.success = 2 ∧
    (send_batch (1/4) ⟨0⟩
      [⟨1, 1, .response 200 "ok"⟩, ⟨3, 1, .exn "timeout"⟩,
       ⟨5, 1, .response 200 "ok"⟩]).2.failed = 1 := by
  obtain ⟨h1, h2, h3⟩ := C4_batch_tally (1/4) ⟨0⟩
    [⟨1, 1, .response 200 "ok"⟩, ⟨3, 1, .exn "timeout"⟩,
     ⟨5, 1, .response 200 "ok"⟩]
  refine ⟨?_, ?_⟩
  · rw [h1]; rfl
  · rw [h2]; rfl

/-- C6: the three list fetches return the empty list on a transport
failure — they are total functions, so nothing is raised to the caller —
and return the list parsed from the response body on success (for
`get_projects`, when no id filter is supplied). -/
theorem C6_fetch_failsoft (client : FetchClient)
    (ids : Option (List String)) (pid tid msg : String)
    (body : FetchBody) :
    (get_projects client (.err msg) ids).2 = [] ∧
    (get_tasks client pid (.err msg)).2 = [] ∧
    (get_task_attachments client pid tid (.err msg)).2 = [] ∧
    (get_projects client (.ok body) none).2 = body.projects.getD [] ∧
    (get_tasks client pid (.ok body)).2 = body.tasks.getD [] ∧
    (get_task_attachments client pid tid (.ok body)).2 =
      body.attachments.getD [] :=
  ⟨rfl, rfl, rfl, rfl, rfl, rfl⟩

/-- C6 witness at a concrete client, failure message and body. -/
theorem C6_witness :
    (get_projects ⟨"u", "h"⟩ (.err "down") none).2 = [] ∧
    (get_tasks ⟨"u", "h"⟩ "p1" (.ok ⟨none, some [blankTask], none⟩)).2 =
      [blankTask] :=
  ⟨(C6_fetch_failsoft ⟨"u", "h"⟩ none "p1" "t1" "down"
      ⟨none, some [blankTask], none⟩).1,
   (C6_fetch_failsoft ⟨"u", "h"⟩ none "p1" "t1" "down"
      ⟨none, some [blankTask], none⟩).2.2.2.2.1⟩

/-- C7: a non-empty id filter other than the exact sentinel `["ALL"]`
keeps precisely the fetched projects whose id belongs to the filter, in
the order of the fetched listing (`List.filter` preserves it); an absent,
empty, or exactly-`["ALL"]` filter returns the fetched list unfiltered. -/
theorem C7_project_filter (client : FetchClient) (body : FetchBody)
    (ids : List String) (h1 : ids ≠ []) (h2 : ids ≠ ["ALL"]) :
    (get_projects client (.ok body) (some ids)).2 =
      (body.projects.getD []).filter (idMatches ids) ∧
    (get_projects client (.ok body) none).2 = body.projects.getD [] ∧
    (get_projects client (.ok body) (some [])).2 =
      body.projects.getD [] ∧
    (get_projects client (.ok body) (some ["ALL"])).2 =
      body.projects.getD [] := by
  have hact : filterActive (some ids) = true := by
    simp [filterActive, List.isEmpty_iff, h1, h2]
  refine ⟨?_, rfl, rfl, rfl⟩
  simp [get_projects, hact]

/-- C7 witness: filter `["p1"]` over a two-project listing keeps only the
matching project. -/
theorem C7_witness :
    (["p1"] ≠ ([] : List String)) ∧ (["p1"] ≠ ["ALL"]) ∧
    (get_projects ⟨"u", "h"⟩
        (.ok ⟨some [⟨some "p1", some "A"⟩, ⟨some "p2", some "B"⟩],
          none, none⟩)
        (some ["p1"])).2 = [⟨some "p1", some "A"⟩] := by
  refine ⟨by decide, by decide, ?_⟩
  have h := (C7_project_filter ⟨"u", "h"⟩
    ⟨some [⟨some "p1", some "A"⟩, ⟨some "p2", some "B"⟩], none, none⟩
    ["p1"] (by decide) (by decide)).1
  rw [h]
  rfl

/-- C8: `get_auth_headers` authenticates exactly when the cached token is
falsy (absent or empty): a truthy cached token is turned into the bearer
header unchanged with no authentication, whatever `expires_at` holds,
while a falsy one makes every successful call pass through
`get_jwt_token`. -/
theorem C8_lazy_token (st : FieldwireAuth) (world : JwtOutcome) :
    (tokenFalsy st.access_token = false →
      get_auth_headers st world =
        .ok ⟨st, "Bearer " ++ optStr st.access_token, false⟩) ∧
    (tokenFalsy st.access_token = true →
      ∀ r, get_auth_headers st world = .ok r →
        r.authenticated = true) := by
  constructor
  · intro h
    simp [get_auth_headers, h]
  · intro h r hr
    rw [get_auth_headers, if_pos h] at hr
    cases world with
    | ok tok exp =>
      simp [get_jwt_token] at hr
      rw [← hr]
    | err m => simp [get_jwt_token] at hr

/-- C8 witness: a cached token with an expiry in the past is reused
without authentication; an absent token forces authentication. -/
theorem C8_witness :
    (tokenFalsy (some "tok") = false ∧
      get_auth_headers ⟨"k", "us", some "tok", some "1970-01-01"⟩
          (.err "never called") =
        .ok ⟨⟨"k", "us", some "tok", some "1970-01-01"⟩,
          "Bearer tok", false⟩) ∧
    (tokenFalsy (none : Option String) = true ∧
      ∀ r, get_auth_headers ⟨"k", "us", none, none⟩
          (.ok (some "fresh") (some "2099-01-01")) = .ok r →
        r.authenticated = true) :=
  ⟨⟨rfl, (C8_lazy_token ⟨"k", "us", some "tok", some "1970-01-01"⟩
      (.err "never called")).1 rfl⟩,
   ⟨rfl, (C8_lazy_token ⟨"k", "us", none, none⟩
      (.ok (some "fresh") (some "2099-01-01"))).2 rfl⟩⟩

/-- C10: the fetch client freezes `Bearer {auth.access_token}` into its
headers at construction; every request of the three list operations
carries exactly that frozen header; a client built before any token was
obtained therefore sends `Bearer None` on every request, and a token
obtained afterwards through `get_jwt_token` never changes the header the
already-built client sends. -/
theorem C10_frozen_header (auth : FieldwireAuth)
    (outcome : FetchOutcome) (ids : Option (List String))
    (pid tid : String) (world : JwtOutcome) (st' : FieldwireAuth) :
    (FieldwireFetch_init auth).headers_authorization =
      "Bearer " ++ optStr auth.access_token ∧
    (auth.access_token = none →
      (FieldwireFetch_init auth).headers_authorization =
        "Bearer None") ∧
    (get_projects (FieldwireFetch_init auth) outcome ids).1.authorization =
      "Bearer " ++ optStr auth.access_token ∧
    (get_tasks (FieldwireFetch_init auth) pid outcome).1.authorization =
      "Bearer " ++ optStr auth.access_token ∧
    (get_task_attachments (FieldwireFetch_init auth) pid tid
        outcome).1.authorization =
      "Bearer " ++ optStr auth.access_token ∧
    (get_jwt_token auth world = .ok st' →
      (get_projects (FieldwireFetch_init auth) outcome
          ids).1.authorization =
        "Bearer " ++ optStr auth.access_token) := by
  refine ⟨rfl, ?_, ?_, ?_, ?_, ?_⟩
  · intro h
    simp [FieldwireFetch_init, h, optStr]
  · cases outcome <;> rfl
  · cases outcome <;> rfl
  · cases outcome <;> rfl
  · intro _
    cases outcome <;> rfl

/-- C10 witness: a client constructed before authentication sends
`Bearer None` even after a later successful token exchange. -/
theorem C10_witness :
    ((⟨"k", "us", none, none⟩ : FieldwireAuth).access_token = none) ∧
    (get_jwt_token ⟨"k", "us", none, none⟩
        (.ok (some "fresh") none) =
      .ok ⟨"k", "us", some "fresh", none⟩) ∧
    (get_projects (FieldwireFetch_init ⟨"k", "us", none, none⟩)
        (.err "down") none).1.authorization = "Bearer None" := by
  refine ⟨rfl, rfl, ?_⟩
  have h := (C10_frozen_header ⟨"k", "us", none, none⟩ (.err "down")
    none "p" "t" (.ok (some "fresh") none)
    ⟨"k", "us", some "fresh", none⟩).2.2.1
  rw [h]
  rfl

/-! ## Pacing (C9) -/

/-- First call of the pacing counterexample trace: entered with the clock
at 1000 and no prior send, the POST takes a tenth of a second and gets a
200 response. -/
def pacingEv1 : CallEvents := ⟨1000, 1/10, .response 200 "ok"⟩

/-- Second call of the pacing counterexample trace, entered the instant
the first call returns. -/
def pacingEv2 : CallEvents := ⟨1000 + 1/10, 1/10, .response 200 "ok"⟩

/-- C9 counterexample: with the default rate limit of a quarter second, a
first call entered at clock 1000 sleeps not at all, posts for a tenth of a
second and returns at 1000.1; a second call entered exactly then — a
realizable trace, since the second conjunct shows the first call returns
with `last_send_time` equal to that instant — has an entry-to-entry
separation of one tenth of a second, below the quarter-second minimum the
claim asserts. -/
theorem C9_counterexample :
    pacingEv2.entry = sendPostEnd (1/4) ⟨0⟩ pacingEv1 ∧
    (send_card (1/4) ⟨0⟩ pacingEv1).1.last_send_time =
      sendPostEnd (1/4) ⟨0⟩ pacingEv1 ∧
    pacingEv2.entry - pacingEv1.entry < 1/4 := by
  refine ⟨?_, ?_, ?_⟩
  · show (1000 : ℚ) + 1/10 = _
    rw [sendPostEnd, sendPostStart, sendSleep]
    norm_num [pacingEv1]
  · rw [send_card_fst_response (1/4) ⟨0⟩ pacingEv1 200 "ok" rfl]
  · show (1000 : ℚ) + 1/10 - 1000 < 1/4
    norm_num

/-- C9 (amended): the pacing the sender actually enforces is measured
against `last_send_time`, the recorded completion instant of the previous
POST, not against call entries: every call issues its POST no earlier
than `last_send_time + rate_limit`, and when a call receives an HTTP
response, the next call posts at least `rate_limit` after that call
finished posting.  Call entry times themselves are chosen by the caller
and can be arbitrarily close. -/
theorem C9_post_spacing (rate_limit : ℚ) (st : SendState)
    (ev1 ev2 : CallEvents) (code : Nat) (body : String)
    (h : ev1.outcome = .response code body) :
    st.last_send_time + rate_limit ≤ sendPostStart rate_limit st ev1 ∧
    sendPostEnd rate_limit st ev1 + rate_limit ≤
      sendPostStart rate_limit (send_card rate_limit st ev1).1 ev2 := by
  constructor
  · exact post_start_lower_bound rate_limit st ev1
  · rw [send_card_fst_response rate_limit st ev1 code body h]
    exact post_start_lower_bound rate_limit ⟨sendPostEnd rate_limit st ev1⟩
      ev2

/-- C9 witness on the concrete counterexample trace: the second POST goes
out at 1000.35, a quarter second after the first completed at 1000.1. -/
theorem C9_witness :
    (pacingEv1.outcome = .response 200 "ok") ∧
    ((⟨0⟩ : SendState).last_send_time + 1/4 ≤
      sendPostStart (1/4) ⟨0⟩ pacingEv1 ∧
    sendPostEnd (1/4) ⟨0⟩ pacingEv1 + 1/4 ≤
      sendPostStart (1/4) ((send_card (1/4) ⟨0⟩ pacingEv1).1)
        pacingEv2) :=
  ⟨rfl, C9_post_spacing (1/4) ⟨0⟩ pacingEv1 pacingEv2 200 "ok" rfl⟩

end FwTeams
